import Mathlib

/-!
Shallow embedding of `src/llm_benchmark_suite.py` (the concurrent fan-out/fan-in
LLM benchmark orchestrator) and proofs about its roster construction,
configuration merging, dispatch/aggregation, formatting and persistence logic.

Modelling conventions:
* Python `dict[str, str | None]` values are `Option String` (a Python `None`
  value is `none`); dicts are insertion-ordered association lists with the
  CPython semantics that assigning to an existing key replaces its value in
  place (keeping its position) while a new key is appended at the end.
* `os.getenv` is an environment `env : String → Option String`.
* External collaborators (the `llm_benchmark.run` runner, `json.dumps` on the
  dynamic result dicts, IEEE-754 float column formatting) are parameters of the
  embedding; everything the repository itself computes is defined concretely.
* `asyncio` tasks: `run` launches one task per roster entry and awaits
  `asyncio.gather(*tasks)` (with the default `return_exceptions=False`), which
  is modelled by `gather` below: the list of settled outcomes if no task
  raised, otherwise the raised exception.
-/

/-- CPython dict assignment `d[k] = v`: replaces the value of the first entry
with key `k` in place, otherwise appends `(k, v)` at the end. -/
def dictInsert {α : Type} : List (String × α) → String × α → List (String × α)
  | [], kv => [kv]
  | p :: rest, kv => if p.1 = kv.1 then (kv.1, kv.2) :: rest else p :: dictInsert rest kv

/-- CPython `d.update(kvs)` / dict-literal construction: left-to-right
assignment of each key-value pair. -/
def dictUpdate {α : Type} (d : List (String × α)) (kvs : List (String × α)) :
    List (String × α) :=
  kvs.foldl dictInsert d

/-- CPython `d[k]` lookup (as an `Option`; every lookup the source performs is
on a key that is present). -/
def dictGet {α : Type} (d : List (String × α)) (k : String) : Option α :=
  (d.find? (fun p => p.1 == k)).map (fun p => p.2)

/-- Python `k.replace('_', '-')` for the single-character pattern used by
`_dict_to_argv`. -/
def pyFlagKey (k : String) : String :=
  ⟨k.data.map (fun c => if c = '_' then '-' else c)⟩

/-- Rendering of a Python value inside the f-string `f"--{k}={v}"`: a string
renders as itself, `None` renders as the four characters `None`. -/
def pyStrOf : Option String → String
  | some s => s
  | none => "None"

/-- Source `_dict_to_argv(d)`: `[f"--{k.replace('_', '-')}={v}" for k, v in d.items()]`. -/
def dict_to_argv (d : List (String × Option String)) : List String :=
  d.map (fun kv => "--" ++ pyFlagKey kv.1 ++ "=" ++ pyStrOf kv.2)

/-- The state of one `_Llm` registry entry: its `args` dict and its
`pass_argv` list. -/
structure Llm where
  args : List (String × Option String)
  pass_argv : List String
deriving DecidableEq, Repr

/-- Constructor `_Llm.__init__(self, model, **kwargs)`:
`self.args = {"model": model, **kwargs, "format": "none"}`, `self.pass_argv = []`. -/
def mkLlm (model : String) (kwargs : List (String × Option String)) : Llm :=
  { args := dictUpdate [] ([("model", some model)] ++ kwargs ++ [("format", some "none")])
    pass_argv := [] }

/-- Method `_Llm.apply(self, pass_argv, **kwargs)`: `self.pass_argv = pass_argv;
self.args.update(kwargs); return self`. CPython mutates `self` in place and
returns it, so the returned record is the registry entry's state after the
call. -/
def Llm.apply (l : Llm) (pass_argv : List String) (kwargs : List (String × Option String)) :
    Llm :=
  { args := dictUpdate l.args kwargs, pass_argv := pass_argv }

/-- The `full_argv` built by `_Llm.run`:
`_dict_to_argv(self.args) + self.pass_argv` (then handed to
`llm_benchmark.run`). -/
def Llm.full_argv (l : Llm) : List String :=
  dict_to_argv l.args ++ l.pass_argv

/-- Subclass `_AnyscaleLlm(model)`. -/
def AnyscaleLlm (env : String → Option String) (model : String) : Llm :=
  mkLlm model [("api_key", env "ANYSCALE_API_KEY"),
    ("base_url", some "https://api.endpoints.anyscale.com/v1")]

/-- Subclass `_FireworksLlm(model)`. -/
def FireworksLlm (env : String → Option String) (model : String) : Llm :=
  mkLlm model [("api_key", env "FIREWORKS_API_KEY"),
    ("base_url", some "https://api.fireworks.ai/inference/v1")]

/-- Subclass `_GroqLlm(model)`. -/
def GroqLlm (env : String → Option String) (model : String) : Llm :=
  mkLlm model [("api_key", env "GROQ_API_KEY"),
    ("base_url", some "https://api.groq.com/openai/v1")]

/-- Subclass `_OctoLlm(model)`. -/
def OctoLlm (env : String → Option String) (model : String) : Llm :=
  mkLlm model [("api_key", env "OCTOML_API_KEY"),
    ("base_url", some "https://text.octoai.run/v1")]

/-- Subclass `_PerplexityLlm(model)`. -/
def PerplexityLlm (env : String → Option String) (model : String) : Llm :=
  mkLlm model [("api_key", env "PERPLEXITY_API_KEY"),
    ("base_url", some "https://api.perplexity.ai")]

/-- Subclass `_TogetherLlm(model)`. -/
def TogetherLlm (env : String → Option String) (model : String) : Llm :=
  mkLlm model [("api_key", env "TOGETHER_API_KEY"),
    ("base_url", some "https://api.together.xyz/v1")]

/-- Table `_text_models()`, in source order. -/
def text_models (env : String → Option String) : List Llm :=
  [mkLlm "gpt-4-turbo" [],
   mkLlm "gpt-4-0125-preview" [],
   mkLlm "gpt-4-0125-preview"
     [("api_key", env "AZURE_SCENTRALUS_OPENAI_API_KEY"),
      ("base_url", some "https://fixie-scentralus.openai.azure.com")],
   mkLlm "gpt-4-1106-preview" [],
   mkLlm "gpt-4-1106-preview"
     [("base_url", some "https://fixie-westus.openai.azure.com")],
   mkLlm "gpt-4-1106-preview"
     [("api_key", env "AZURE_EASTUS2_OPENAI_API_KEY"),
      ("base_url", some "https://fixie-openai-sub-with-gpt4.openai.azure.com")],
   mkLlm "gpt-4-1106-preview"
     [("api_key", env "AZURE_FRCENTRAL_OPENAI_API_KEY"),
      ("base_url", some "https://fixie-frcentral.openai.azure.com")],
   mkLlm "gpt-4-1106-preview"
     [("api_key", env "AZURE_SECENTRAL_OPENAI_API_KEY"),
      ("base_url", some "https://fixie-secentral.openai.azure.com")],
   mkLlm "gpt-4-1106-preview"
     [("api_key", env "AZURE_UKSOUTH_OPENAI_API_KEY"),
      ("base_url", some "https://fixie-uksouth.openai.azure.com")],
   mkLlm "gpt-3.5-turbo-0125" [],
   mkLlm "gpt-3.5-turbo-1106" [],
   mkLlm "gpt-3.5-turbo-1106"
     [("base_url", some "https://fixie-westus.openai.azure.com")],
   mkLlm "gpt-3.5-turbo"
     [("api_key", env "AZURE_EASTUS2_OPENAI_API_KEY"),
      ("base_url", some "https://fixie-openai-sub-with-gpt4.openai.azure.com")],
   mkLlm "claude-3-opus-20240229" [],
   mkLlm "claude-3-sonnet-20240229" [],
   mkLlm "claude-3-haiku-20240307" [],
   mkLlm "claude-2.1" [],
   mkLlm "claude-instant-1.2" [],
   mkLlm "command-r-plus" [],
   mkLlm "command-r" [],
   mkLlm "command-light" [],
   mkLlm "gemini-pro" [],
   mkLlm "gemini-1.5-pro-preview-0409" [],
   mkLlm ""
     [("api_key", env "AZURE_EASTUS2_MISTRAL_API_KEY"),
      ("base_url", some "https://fixie-mistral-serverless.eastus2.inference.ai.azure.com/v1")],
   AnyscaleLlm env "mistralai/Mixtral-8x7B-Instruct-v0.1",
   FireworksLlm env "accounts/fireworks/models/mixtral-8x7b-instruct",
   GroqLlm env "mixtral-8x7b-32768",
   OctoLlm env "mixtral-8x7b-instruct",
   PerplexityLlm env "mixtral-8x7b-instruct",
   PerplexityLlm env "sonar-medium-chat",
   AnyscaleLlm env "meta-llama/Llama-3-70b-chat-hf",
   FireworksLlm env "accounts/fireworks/models/llama-v3-70b-instruct",
   GroqLlm env "llama3-70b-8192",
   PerplexityLlm env "llama-3-70b-instruct",
   TogetherLlm env "meta-llama/Llama-3-70b-chat-hf",
   mkLlm ""
     [("api_key", env "AZURE_WESTUS3_LLAMA2_API_KEY"),
      ("base_url", some "https://fixie-llama-2-70b-serverless.westus3.inference.ai.azure.com/v1")],
   mkLlm ""
     [("api_key", env "AZURE_EASTUS2_LLAMA2_API_KEY"),
      ("base_url", some "https://fixie-llama-2-70b-serverless.eastus2.inference.ai.azure.com/v1")],
   AnyscaleLlm env "meta-llama/Llama-2-70b-chat-hf",
   FireworksLlm env "accounts/fireworks/models/llama-v2-70b-chat",
   GroqLlm env "llama2-70b-4096",
   OctoLlm env "llama-2-70b-chat-fp16",
   TogetherLlm env "togethercomputer/llama-2-70b-chat",
   FireworksLlm env "accounts/fireworks/models/llama-v2-13b-chat",
   AnyscaleLlm env "meta-llama/Llama-2-13b-chat-hf",
   TogetherLlm env "togethercomputer/llama-2-13b-chat",
   OctoLlm env "llama-2-13b-chat-fp16",
   AnyscaleLlm env "meta-llama/Llama-3-8b-chat-hf",
   FireworksLlm env "accounts/fireworks/models/llama-v3-8b-instruct",
   GroqLlm env "llama3-8b-8192",
   PerplexityLlm env "llama-3-8b-instruct",
   TogetherLlm env "meta-llama/Llama-3-8b-chat-hf",
   AnyscaleLlm env "meta-llama/Llama-2-7b-chat-hf",
   FireworksLlm env "accounts/fireworks/models/llama-v2-7b-chat",
   TogetherLlm env "togethercomputer/llama-2-7b-chat",
   mkLlm "@cf/meta/llama-2-7b-chat-fp16" [],
   mkLlm "@cf/meta/llama-2-7b-chat-int8" []]

/-- Table `_image_models()`, in source order. -/
def image_models : List Llm :=
  [mkLlm "gpt-4-turbo" [],
   mkLlm "gpt-4-vision-preview"
     [("base_url", some "https://fixie-westus.openai.azure.com")],
   mkLlm "claude-3-opus-20240229" [],
   mkLlm "claude-3-sonnet-20240229" [],
   mkLlm "gemini-pro-vision" [],
   mkLlm "gemini-1.5-pro-preview-0409" []]

/-- Table `_av_models()`. -/
def av_models : List Llm :=
  [mkLlm "gemini-1.5-pro-preview-0409" []]

/-- Python substring test `needle in hay` on strings. -/
def strIn (needle hay : String) : Bool :=
  decide (needle.data <:+: hay.data)

/-- Lookup `m.args["model"]` as a string (in every roster entry the key is present
and its value is a string). -/
def modelOf (m : Llm) : String :=
  match dictGet m.args "model" with
  | some (some s) => s
  | _ => ""

/-- The roster filter predicate `not filter or filter in m.args["model"]`
(`filter` is falsy when it is `None` or the empty string). -/
def keepFilter (filter : Option String) (m : Llm) : Bool :=
  match filter with
  | none => true
  | some f => f == "" || strIn f (modelOf m)

/-- The `mode_map[mode]()` lookup of `_get_models` (unreachable default for a
mode outside the map, which `_get_models` rejects first). -/
def modeModels (env : String → Option String) (mode : String) : List Llm :=
  if mode = "text" then text_models env
  else if mode = "image" then image_models
  else if mode = "audio" then av_models
  else if mode = "video" then av_models
  else []

/-- Function `_get_models(mode, filter)`: raises `ValueError(f"Unknown mode {mode}")`
for a mode outside the map, otherwise filters the mode's table. -/
def get_models (env : String → Option String) (mode : String) (filter : Option String) :
    Except String (List Llm) :=
  if mode = "text" ∨ mode = "image" ∨ mode = "audio" ∨ mode = "video" then
    .ok ((modeModels env mode).filter (keepFilter filter))
  else
    .error ("Unknown mode " ++ mode)

/-- The `_Response` dataclass; `results` stays abstract (each element is one
dynamic result dict produced by the external runner). -/
structure Response (ρ : Type) where
  time : String
  region : String
  cmd : String
  results : List ρ
deriving DecidableEq, Repr

/-- Python `str.replace("\n", "\\n")`: each newline becomes the two
characters backslash, `n`. -/
def escapeNL : List Char → List Char
  | [] => []
  | c :: t => if c = '\n' then '\\' :: 'n' :: escapeNL t else c :: escapeNL t

/-- A character Python `str.strip()` removes (ASCII whitespace; the source
only ever strips benchmark output text). -/
def isPySpace (c : Char) : Bool :=
  c = ' ' || c = '\t' || c = '\n' || c = '\r' || c = '\x0b' || c = '\x0c'

/-- Python `str.strip()`: drop leading and trailing whitespace. -/
def pyStrip (l : List Char) : List Char :=
  ((l.dropWhile isPySpace).reverse.dropWhile isPySpace).reverse

/-- Python format spec `{s:{fill}<{d}.{d}}` on a string: truncate to at most
`d` characters, then left-align-pad with `fill` to exactly `d`. -/
def pyPadWith (fill : Char) (s : List Char) (d : Nat) : List Char :=
  s.take d ++ List.replicate (d - (s.take d).length) fill

/-- Python format spec `{s:{d}.{d}}` (default fill and alignment for
strings). -/
def pyPad (s : List Char) (d : Nat) : List Char :=
  pyPadWith ' ' s d

/-- The Output column of one table row:
`output = r["output"].replace("\n", "\\n").strip()` rendered with
`f"{output:{dlen}.{dlen}}"`. -/
def formatOutputField (out : String) (dlen : Nat) : String :=
  ⟨pyPad (pyStrip (escapeNL out.data)) dlen⟩

/-- The two header lines of the tabular rendering (`dlen`-wide Response
column). -/
def tableHeader (dlen : Nat) : String :=
  "| Provider/Model                             | TTR  | TTFT | TPS | Tok | Total | "
    ++ ⟨pyPad "Response".data dlen⟩ ++ " |\n"
    ++ "| :----------------------------------------- | ---: | ---: | --: | --: | ----: | "
    ++ ⟨pyPadWith '-' ":--".data dlen⟩ ++ " |\n"

/-- One data row of the tabular rendering. `rowOf r` stands for the
model/TTR/TTFT/TPS/Tok/Total columns (`f"{r['model']:42} | {r['ttr']:4.2f} |
..."`), whose IEEE-754 float rendering is external to this embedding;
`outOf r` is `r["output"]`. -/
def tableRow (rowOf : ρ → String) (outOf : ρ → String) (dlen : Nat) (r : ρ) : String :=
  "| " ++ rowOf r ++ " | " ++ formatOutputField (outOf r) dlen ++ " |\n"

/-- The trailing metadata line. -/
def tableFooter (resp : Response ρ) : String :=
  "\ntime: " ++ resp.time ++ ", region: " ++ resp.region ++ ", cmd: " ++ resp.cmd ++ "\n"

/-- Function `_format_response(response, format, dlen)`. `ser` stands for
`json.dumps(vars(response), indent=2)`, the stdlib serialization of the
dynamic result dicts, external to this embedding. -/
def format_response (ser : Response ρ → String) (rowOf : ρ → String) (outOf : ρ → String)
    (resp : Response ρ) (format : String) (dlen : Nat) : String × String :=
  if format = "json" then
    (ser resp, "application/json")
  else
    (tableHeader dlen ++ String.join (resp.results.map (tableRow rowOf outOf dlen))
       ++ tableFooter resp,
     "text/markdown")

/-- Constant `DEFAULT_GCS_BUCKET`. -/
def DEFAULT_GCS_BUCKET : String := "thefastest-data"

/-- Constant `DEFAULT_DISPLAY_LENGTH`. -/
def DEFAULT_DISPLAY_LENGTH : Nat := 64

/-- An error escaping `run`: the roster-construction `ValueError`, or an
exception raised by one of the gathered benchmark tasks. -/
inductive RunError (ε : Type) where
  | unknownMode (msg : String)
  | invocation (e : ε)
deriving DecidableEq, Repr

/-- What a completed `run` produced: the returned rendering, the
`_store_response` uploads performed (bucket, key, body, content type), and
the assembled `_Response`. -/
structure RunResult (ρ : Type) where
  rendered : String × String
  storeCalls : List (String × String × String × String)
  response : Response ρ
deriving DecidableEq, Repr

/-- Model of `await asyncio.gather(*tasks)` with the default
`return_exceptions=False`: if every task settles with a value, the list of
values; if any task raises, the exception propagates out of the `await`
(siblings keep running but their results are discarded). -/
def gather {ε α : Type} : List (Except ε α) → Except ε (List α)
  | [] => .ok []
  | .error e :: _ => .error e
  | .ok a :: t => (gather t).map (fun l => a :: l)

/-- The dispatch loop of `run`: `m.apply(pass_argv or [], **kwargs)` then
`m.run()`, one task per roster entry, each handing its `full_argv` to the
external `llm_benchmark.run` (the `runner` parameter). An outcome is
`Except.error` when the task raised, otherwise the task's value (`none` when
the benchmark produced no usable result). -/
def dispatched (models : List Llm) (pass_argv : List String)
    (kwargs : List (String × Option String))
    (runner : List String → Except ε (Option ρ)) : List (Except ε (Option ρ)) :=
  models.map (fun m => runner ((m.apply pass_argv kwargs).full_argv))

/-- The result-collection line of `run`:
`[t.result() for t in tasks if t.result() is not None]`. -/
def aggregateResults (outs : List (Option ρ)) : List ρ :=
  outs.filterMap id

/-- Lookup `os.getenv("FLY_REGION", "local")`. -/
def pyRegion (env : String → Option String) : String :=
  (env "FLY_REGION").getD "local"

/-- Computation `time_str.split("T")[0]`: the prefix before the first `T` (the date part
of the ISO-8601 run-start timestamp). -/
def dateOf (time_str : String) : String :=
  ⟨time_str.data.takeWhile (fun c => c ≠ 'T')⟩

/-- Orchestrator `run(mode, format, display_length, filter, store, pass_argv, **kwargs)`.
`time_str` is the `datetime.datetime.now().isoformat()` captured at run
start; `runner` is the external `llm_benchmark.run`. Mirrors the source
order: build `argv`, build the roster (a `ValueError` propagates before any
task is created), apply and launch every task, gather, collect non-`None`
results, assemble the `_Response`, optionally store the `"json"` rendering,
and return the rendering in the requested format. -/
def run (env : String → Option String) (mode format : String) (display_length : Nat)
    (filter : Option String) (store : Bool) (pass_argv : List String)
    (kwargs : List (String × Option String)) (time_str : String)
    (ser : Response ρ → String) (rowOf : ρ → String) (outOf : ρ → String)
    (runner : List String → Except ε (Option ρ)) : Except (RunError ε) (RunResult ρ) :=
  let argv := dict_to_argv kwargs ++ pass_argv
  match get_models env mode filter with
  | .error msg => .error (.unknownMode msg)
  | .ok models =>
    match gather (dispatched models pass_argv kwargs runner) with
    | .error e => .error (.invocation e)
    | .ok outs =>
      let response : Response ρ :=
        ⟨time_str, pyRegion env, String.intercalate " " argv, aggregateResults outs⟩
      let storeCalls :=
        if store then
          [(DEFAULT_GCS_BUCKET,
            pyRegion env ++ "/" ++ mode ++ "/" ++ dateOf time_str ++ ".json",
            (format_response ser rowOf outOf response "json" display_length).1,
            (format_response ser rowOf outOf response "json" display_length).2)]
        else []
      .ok ⟨format_response ser rowOf outOf response format display_length,
           storeCalls, response⟩

theorem dictGet_cons {α : Type} (p : String × α) (l : List (String × α)) (k : String) :
    dictGet (p :: l) k = if p.1 = k then some p.2 else dictGet l k := by
  by_cases h : p.1 = k <;> simp [dictGet, List.find?_cons, h]

theorem dictGet_dictInsert {α : Type} (d : List (String × α)) (kv : String × α) (k : String) :
    dictGet (dictInsert d kv) k = if k = kv.1 then some kv.2 else dictGet d k := by
  induction d with
  | nil =>
    show dictGet [kv] k = if k = kv.1 then some kv.2 else dictGet [] k
    rw [dictGet_cons]
    by_cases h : k = kv.1
    · simp [h]
    · simp [dictGet, h, Ne.symm h]
  | cons p rest ih =>
    simp only [dictInsert]
    by_cases h : p.1 = kv.1
    · rw [if_pos h, dictGet_cons, dictGet_cons]
      by_cases hk : k = kv.1
      · simp [hk]
      · have h2 : ¬ p.1 = k := fun hh => hk (h.symm.trans hh).symm
        have h1 : ¬ kv.1 = k := fun hh => hk hh.symm
        simp [h1, h2, hk]
    · rw [if_neg h, dictGet_cons, ih, dictGet_cons]
      by_cases hk : k = kv.1
      · have h2 : ¬ p.1 = k := fun hh => h (hh.trans hk)
        simp [h2, hk, h]
      · by_cases hp : p.1 = k <;> simp [hp, hk]

theorem dictGet_dictUpdate_not_mem {α : Type} (kvs d : List (String × α)) (k : String)
    (hk : k ∉ kvs.map Prod.fst) :
    dictGet (dictUpdate d kvs) k = dictGet d k := by
  induction kvs generalizing d with
  | nil => rfl
  | cons p rest ih =>
    simp only [List.map_cons, List.mem_cons, not_or] at hk
    show dictGet (dictUpdate (dictInsert d p) rest) k = dictGet d k
    rw [ih _ hk.2, dictGet_dictInsert, if_neg hk.1]

theorem dictGet_dictUpdate_mem {α : Type} (kvs d : List (String × α)) (k : String) (v : α)
    (hnodup : (kvs.map Prod.fst).Nodup) (hget : dictGet kvs k = some v) :
    dictGet (dictUpdate d kvs) k = some v := by
  induction kvs generalizing d with
  | nil => simp [dictGet, List.find?] at hget
  | cons p rest ih =>
    simp only [List.map_cons, List.nodup_cons] at hnodup
    rw [dictGet_cons] at hget
    show dictGet (dictUpdate (dictInsert d p) rest) k = some v
    by_cases h : p.1 = k
    · rw [if_pos h] at hget
      rw [dictGet_dictUpdate_not_mem _ _ _ (h ▸ hnodup.1), dictGet_dictInsert,
        if_pos h.symm, hget]
    · rw [if_neg h] at hget
      exact ih _ hnodup.2 hget

/-- C1 (counterexample): the claimed precedence `shared < target-specific` is
the wrong way around in the code. `_Llm.apply` runs `self.args.update(kwargs)`,
so a shared option named like a target built-in (`api_key`) replaces the
target's own value: for an Anyscale entry (built-in `api_key` from
`ANYSCALE_API_KEY`) applied with shared `api_key="SHARED"`, the final argument
set carries the shared value and the target's own value is gone. -/
theorem c1_shared_beats_target_counterexample :
    dictGet (AnyscaleLlm (fun v => some v) "m").args "api_key" =
      some (some "ANYSCALE_API_KEY") ∧
    "--api-key=SHARED" ∈
      ((AnyscaleLlm (fun v => some v) "m").apply ["pt"]
        [("api_key", some "SHARED")]).full_argv ∧
    "--api-key=ANYSCALE_API_KEY" ∉
      ((AnyscaleLlm (fun v => some v) "m").apply ["pt"]
        [("api_key", some "SHARED")]).full_argv := by
  refine ⟨rfl, ?_, ?_⟩ <;> decide

/-- C1 (amended): the merge precedence is target-specific < shared <
pass-through. `apply` overwrites same-named target built-ins with the shared
option's value (`dict.update`), and `_Llm.run` appends every pass-through
token after all merged `--key=value` option tokens. -/
theorem apply_shared_overrides_passthrough_last
    (l : Llm) (pass : List String) (kwargs : List (String × Option String))
    (k : String) (v : Option String)
    (hnodup : (kwargs.map Prod.fst).Nodup)
    (hget : dictGet kwargs k = some v) :
    dictGet (l.apply pass kwargs).args k = some v ∧
    (l.apply pass kwargs).full_argv = dict_to_argv (l.apply pass kwargs).args ++ pass := by
  exact ⟨dictGet_dictUpdate_mem kwargs l.args k v hnodup hget, rfl⟩

/-- C1 (witness): the amended precedence at a concrete input. -/
theorem apply_shared_overrides_passthrough_last_witness :
    dictGet ((AnyscaleLlm (fun v => some v) "m").apply ["pt"]
        [("api_key", some "SHARED")]).args "api_key" = some (some "SHARED") ∧
    ((AnyscaleLlm (fun v => some v) "m").apply ["pt"]
        [("api_key", some "SHARED")]).full_argv =
      dict_to_argv ((AnyscaleLlm (fun v => some v) "m").apply ["pt"]
        [("api_key", some "SHARED")]).args ++ ["pt"] :=
  apply_shared_overrides_passthrough_last (AnyscaleLlm (fun v => some v) "m") ["pt"]
    [("api_key", some "SHARED")] "api_key" (some "SHARED") (by decide) (by decide)

/-- C8 (counterexample): the Configuration Builder's merge step does not
leave the registry entry unchanged. `_Llm.apply` mutates `self` in place
(`self.pass_argv = pass_argv; self.args.update(kwargs)`), so after a merge
with a new shared option the entry's argument map and pass-through list both
differ from their pre-merge values. -/
theorem c8_apply_mutates_counterexample :
    ((mkLlm "m" []).apply ["pt"] [("temperature", some "0.5")]).args ≠
      (mkLlm "m" []).args ∧
    ((mkLlm "m" []).apply ["pt"] [("temperature", some "0.5")]).pass_argv ≠
      (mkLlm "m" []).pass_argv := by
  refine ⟨?_, ?_⟩ <;> decide

/-- C8 (amended): the merge step mutates the registry entry in place rather
than producing a new configuration: after `apply`, the entry's argument map
is its previous map updated with the shared options and its pass-through
list is the supplied one; the mutation is limited to the supplied keys —
every argument under a key not named in the shared options keeps its
pre-merge value. (Registry entries are rebuilt on every roster construction,
so repeated runs still start from fresh entries.) -/
theorem apply_mutates_in_place
    (l : Llm) (pass : List String) (kwargs : List (String × Option String)) :
    (l.apply pass kwargs).args = dictUpdate l.args kwargs ∧
    (l.apply pass kwargs).pass_argv = pass ∧
    ∀ k, k ∉ kwargs.map Prod.fst →
      dictGet (l.apply pass kwargs).args k = dictGet l.args k := by
  exact ⟨rfl, rfl, fun k hk => dictGet_dictUpdate_not_mem kwargs l.args k hk⟩

/-- C4: `_get_models` fails exactly on a mode outside
text/image/audio/video, and `run` then surfaces the error before any task is
created — no report (and no persistence call) is produced. -/
theorem get_models_unknown_mode_iff {ρ ε : Type}
    (env : String → Option String) (mode : String) (filter : Option String) :
    ((∃ e, get_models env mode filter = .error e) ↔
      ¬ (mode = "text" ∨ mode = "image" ∨ mode = "audio" ∨ mode = "video")) ∧
    (¬ (mode = "text" ∨ mode = "image" ∨ mode = "audio" ∨ mode = "video") →
      ∀ (format : String) (dlen : Nat) (store : Bool) (pass : List String)
        (kwargs : List (String × Option String)) (time : String)
        (ser : Response ρ → String) (rowOf outOf : ρ → String)
        (runner : List String → Except ε (Option ρ)),
        run env mode format dlen filter store pass kwargs time ser rowOf outOf runner =
          .error (.unknownMode ("Unknown mode " ++ mode))) := by
  constructor
  · constructor
    · rintro ⟨e, he⟩ hvalid
      simp [get_models, hvalid] at he
    · intro hinvalid
      exact ⟨"Unknown mode " ++ mode, by simp [get_models, hinvalid]⟩
  · intro hinvalid format dlen store pass kwargs time ser rowOf outOf runner
    simp [run, get_models, hinvalid]

/-- C4 (witness): a concrete unknown mode is rejected, a concrete valid mode
is not, and `run` on the unknown mode fails with the unknown-mode error. -/
theorem get_models_unknown_mode_iff_witness :
    ((∃ e, get_models (fun _ => none) "chat" none = .error e) ↔
      ¬ ("chat" = "text" ∨ "chat" = "image" ∨ "chat" = "audio" ∨ "chat" = "video")) ∧
    run (fun _ => none) "chat" "text" 10 none false [] [] "t"
        (fun (_ : Response Nat) => "") (fun _ => "") (fun _ => "")
        (fun (_ : List String) => (.ok none : Except String (Option Nat))) =
      .error (.unknownMode "Unknown mode chat") :=
  ⟨(get_models_unknown_mode_iff (ρ := Nat) (ε := String) (fun _ => none) "chat" none).1,
   (get_models_unknown_mode_iff (fun _ => none) "chat" none).2 (by decide)
     "text" 10 false [] [] "t" (fun _ => "") (fun _ => "") (fun _ => "") _⟩

theorem keepFilter_nonempty (f : String) (hf : f ≠ "") (m : Llm) :
    keepFilter (some f) m = strIn f (modelOf m) := by
  simp [keepFilter, beq_eq_false_iff_ne.mpr hf]

/-- C5: for a valid mode and a non-empty filter, `_get_models` succeeds and
returns exactly the entries of the mode's static table whose `model` contains
the filter as a (case-sensitive) substring, as a sublist of the table
(relative order preserved); an empty filtered list is still a normal `.ok`
result. Determinism is inherent: `get_models` is a function of `env`, `mode`
and `filter` alone. -/
theorem get_models_filter_substring (env : String → Option String) (mode f : String)
    (hm : mode = "text" ∨ mode = "image" ∨ mode = "audio" ∨ mode = "video")
    (hf : f ≠ "") :
    get_models env mode (some f) =
      .ok ((modeModels env mode).filter (fun m => strIn f (modelOf m))) ∧
    ((modeModels env mode).filter (fun m => strIn f (modelOf m))).Sublist
      (modeModels env mode) ∧
    ∀ m, m ∈ (modeModels env mode).filter (fun m => strIn f (modelOf m)) ↔
      (m ∈ modeModels env mode ∧ f.data <:+: (modelOf m).data) := by
  refine ⟨?_, List.filter_sublist _, ?_⟩
  · simp only [get_models, if_pos hm]
    exact congrArg Except.ok (List.filter_congr (fun m _ => keepFilter_nonempty f hf m))
  · intro m
    simp [List.mem_filter, strIn]

/-- C5 (witness): concrete mode `image`, filter `gemini`. -/
theorem get_models_filter_substring_witness :
    get_models (fun _ => none) "image" (some "gemini") =
      .ok (image_models.filter (fun m => strIn "gemini" (modelOf m))) ∧
    (image_models.filter (fun m => strIn "gemini" (modelOf m))).Sublist image_models ∧
    ∀ m, m ∈ image_models.filter (fun m => strIn "gemini" (modelOf m)) ↔
      (m ∈ image_models ∧ "gemini".data <:+: (modelOf m).data) :=
  get_models_filter_substring (fun _ => none) "image" "gemini"
    (by decide) (by decide)

/-- C9: for every filter (and environment), the rosters for modes `audio`
and `video` are identical: both map to the single-entry `_av_models` table. -/
theorem get_models_audio_eq_video (env : String → Option String) (filter : Option String) :
    get_models env "audio" filter = get_models env "video" filter := by
  rfl

/-- C10: with any non-empty filter, every entry of the resulting roster has a
non-empty `model`; the endpoint-only entries (empty `model`) are always
filtered out, since no non-empty string is a substring of the empty string. -/
theorem nonempty_filter_excludes_empty_model (env : String → Option String)
    (mode f : String) (ms : List Llm) (m : Llm) (hf : f ≠ "")
    (hok : get_models env mode (some f) = .ok ms) (hm : m ∈ ms) :
    modelOf m ≠ "" := by
  unfold get_models at hok
  split at hok
  · cases hok
    rw [List.mem_filter, keepFilter_nonempty f hf m] at hm
    have hinfix : f.data <:+: (modelOf m).data := by
      have := hm.2
      simpa [strIn] using this
    intro hempty
    rw [hempty] at hinfix
    have hd : f.data = [] := List.infix_nil.mp (by simpa using hinfix)
    apply hf
    cases f with
    | mk d =>
      simp only [String.data] at hd
      subst hd
      rfl
  · cases hok

/-- C10 (witness): the `gemini-pro-vision` entry selected from the image
roster by the non-empty filter `gemini` has a non-empty model identifier. -/
theorem nonempty_filter_excludes_empty_model_witness :
    modelOf (mkLlm "gemini-pro-vision" []) ≠ "" :=
  nonempty_filter_excludes_empty_model (fun _ => none) "image" "gemini"
    [mkLlm "gemini-pro-vision" [], mkLlm "gemini-1.5-pro-preview-0409" []]
    (mkLlm "gemini-pro-vision" []) (by decide) (by rfl) (by decide)

/-- When the roster builds and no gathered task raises, `run` returns the
fully assembled result (shared characterization used by several claims). -/
theorem run_ok_of_gather_ok {ρ ε : Type}
    (env : String → Option String) (mode format : String) (dlen : Nat)
    (filter : Option String) (store : Bool) (pass : List String)
    (kwargs : List (String × Option String)) (time : String)
    (ser : Response ρ → String) (rowOf outOf : ρ → String)
    (runner : List String → Except ε (Option ρ))
    (models : List Llm) (outs : List (Option ρ))
    (h1 : get_models env mode filter = .ok models)
    (h2 : gather (dispatched models pass kwargs runner) = .ok outs) :
    run env mode format dlen filter store pass kwargs time ser rowOf outOf runner =
      .ok ⟨format_response ser rowOf outOf
             ⟨time, pyRegion env,
              String.intercalate " " (dict_to_argv kwargs ++ pass),
              aggregateResults outs⟩ format dlen,
           (if store then
             [(DEFAULT_GCS_BUCKET,
               pyRegion env ++ "/" ++ mode ++ "/" ++ dateOf time ++ ".json",
               (format_response ser rowOf outOf
                 ⟨time, pyRegion env,
                  String.intercalate " " (dict_to_argv kwargs ++ pass),
                  aggregateResults outs⟩ "json" dlen).1,
               (format_response ser rowOf outOf
                 ⟨time, pyRegion env,
                  String.intercalate " " (dict_to_argv kwargs ++ pass),
                  aggregateResults outs⟩ "json" dlen).2)]
            else []),
           ⟨time, pyRegion env,
            String.intercalate " " (dict_to_argv kwargs ++ pass),
            aggregateResults outs⟩⟩ := by
  simp only [run, h1, h2]

/-- C2 (counterexample): an invocation that raises an exception does abort
the run. With the two-entry `gemini` image roster, a runner that raises on
`gemini-pro-vision` and succeeds on the sibling makes `run` raise the
invocation error instead of completing with the sibling's result
(`asyncio.gather` with its default `return_exceptions=False` propagates the
exception). -/
theorem c2_exception_aborts_run_counterexample :
    (fun argv => if argv.contains "--model=gemini-pro-vision"
        then (.error "boom" : Except String (Option Nat)) else .ok (some 1))
      ((mkLlm "gemini-1.5-pro-preview-0409" []).apply [] []).full_argv = .ok (some 1) ∧
    (fun argv => if argv.contains "--model=gemini-pro-vision"
        then (.error "boom" : Except String (Option Nat)) else .ok (some 1))
      ((mkLlm "gemini-pro-vision" []).apply [] []).full_argv = .error "boom" ∧
    run (fun _ => none) "image" "text" 10 (some "gemini") false [] [] "t"
      (fun _ => "") (fun _ => "") (fun _ => "")
      (fun argv => if argv.contains "--model=gemini-pro-vision"
        then (.error "boom" : Except String (Option Nat)) else .ok (some 1)) =
      .error (.invocation "boom") := by
  refine ⟨rfl, rfl, rfl⟩

/-- C2 (amended): when every invocation settles without raising (failures
showing up as absent/`None` results), the run completes and the report holds
the succeeding invocations' results in their original roster order; an
invocation that raises an exception instead makes the whole run raise. -/
theorem run_completes_with_successes {ρ ε : Type}
    (env : String → Option String) (mode format : String) (dlen : Nat)
    (filter : Option String) (store : Bool) (pass : List String)
    (kwargs : List (String × Option String)) (time : String)
    (ser : Response ρ → String) (rowOf outOf : ρ → String)
    (runner : List String → Except ε (Option ρ))
    (models : List Llm) (outs : List (Option ρ))
    (h1 : get_models env mode filter = .ok models)
    (h2 : gather (dispatched models pass kwargs runner) = .ok outs) :
    ∃ r, run env mode format dlen filter store pass kwargs time ser rowOf outOf runner =
        .ok r ∧
      r.response.results = aggregateResults outs :=
  ⟨_, run_ok_of_gather_ok env mode format dlen filter store pass kwargs time
      ser rowOf outOf runner models outs h1 h2, rfl⟩

/-- C2 (witness): the single-entry audio roster with a succeeding runner. -/
theorem run_completes_with_successes_witness :
    ∃ r, run (fun _ => none) "audio" "text" 10 none false [] [] "t"
        (fun (_ : Response Nat) => "") (fun _ => "") (fun _ => "")
        (fun (_ : List String) => (.ok (some 7) : Except String (Option Nat))) = .ok r ∧
      r.response.results = aggregateResults [some 7] :=
  run_completes_with_successes (fun _ => none) "audio" "text" 10 none false [] [] "t"
    (fun _ => "") (fun _ => "") (fun _ => "") (fun _ => .ok (some 7))
    (av_models.filter (keepFilter none)) [some 7] (by rfl) (by rfl)

theorem aggregate_map_some_sublist {ρ : Type} (outs : List (Option ρ)) :
    ((aggregateResults outs).map some).Sublist outs := by
  induction outs with
  | nil => simp [aggregateResults]
  | cons o t ih =>
    cases o with
    | none => simpa [aggregateResults, List.filterMap_cons] using ih.cons none
    | some a => simpa [aggregateResults, List.filterMap_cons] using ih.cons₂ (some a)

theorem aggregate_length_count {ρ : Type} (outs : List (Option ρ)) :
    (aggregateResults outs).length = (outs.filter (fun o => o.isSome)).length := by
  unfold aggregateResults
  induction outs with
  | nil => rfl
  | cons o t ih => cases o <;> simp [List.filterMap_cons, ih]

/-- C3: the results list is exactly the non-`None` outcomes (the successes)
in roster order — mapping `some` over it recovers a sublist of the outcome
sequence and its length is the number of non-`None` outcomes, hence at most
the roster length; and when every outcome is `None`, `run` still returns a
well-formed report whose results list is empty rather than an error. -/
theorem aggregate_exact_ordered_and_bounded {ρ ε : Type}
    (env : String → Option String) (mode format : String) (dlen : Nat)
    (filter : Option String) (store : Bool) (pass : List String)
    (kwargs : List (String × Option String)) (time : String)
    (ser : Response ρ → String) (rowOf outOf : ρ → String)
    (runner : List String → Except ε (Option ρ))
    (models : List Llm) (outs : List (Option ρ))
    (h1 : get_models env mode filter = .ok models)
    (h2 : gather (dispatched models pass kwargs runner) = .ok outs) :
    ((aggregateResults outs).map some).Sublist outs ∧
    (aggregateResults outs).length = (outs.filter (fun o => o.isSome)).length ∧
    (aggregateResults outs).length ≤ outs.length ∧
    ((∀ o ∈ outs, o = none) →
      ∃ r, run env mode format dlen filter store pass kwargs time ser rowOf outOf runner =
          .ok r ∧
        r.response.results = []) := by
  refine ⟨aggregate_map_some_sublist outs, aggregate_length_count outs,
    List.length_filterMap_le id outs, fun hnone => ?_⟩
  refine ⟨_, run_ok_of_gather_ok env mode format dlen filter store pass kwargs time
    ser rowOf outOf runner models outs h1 h2, ?_⟩
  show aggregateResults outs = []
  simp only [aggregateResults, List.filterMap_eq_nil_iff]
  exact fun o ho => hnone o ho

/-- C3 (witness): single-entry audio roster, runner yielding no result. -/
theorem aggregate_exact_ordered_and_bounded_witness :
    (((aggregateResults [(none : Option Nat)]).map some).Sublist [none] ∧
    (aggregateResults [(none : Option Nat)]).length =
      ([(none : Option Nat)].filter (fun o => o.isSome)).length ∧
    (aggregateResults [(none : Option Nat)]).length ≤ [(none : Option Nat)].length ∧
    ((∀ o ∈ [(none : Option Nat)], o = none) →
      ∃ r, run (fun _ => none) "audio" "text" 10 none false [] [] "t"
          (fun (_ : Response Nat) => "") (fun _ => "") (fun _ => "")
          (fun (_ : List String) => (.ok none : Except String (Option Nat))) = .ok r ∧
        r.response.results = [])) :=
  aggregate_exact_ordered_and_bounded (fun _ => none) "audio" "text" 10 none false [] [] "t"
    (fun _ => "") (fun _ => "") (fun _ => "") (fun _ => .ok none)
    (av_models.filter (keepFilter none)) [none] (by rfl) (by rfl)

/-- C7: on a completed run, persistence happens exactly once when `store` is
set and never otherwise; the single upload goes to the default bucket under
key `<region>/<mode>/<date>.json` (date = the part of the run-start
timestamp before `T`), and its body is the `"json"` (structured) rendering
of the report with content type `application/json`, regardless of the
requested output `format`. -/
theorem store_exactly_once_with_structured_body {ρ ε : Type}
    (env : String → Option String) (mode format : String) (dlen : Nat)
    (filter : Option String) (store : Bool) (pass : List String)
    (kwargs : List (String × Option String)) (time : String)
    (ser : Response ρ → String) (rowOf outOf : ρ → String)
    (runner : List String → Except ε (Option ρ))
    (models : List Llm) (outs : List (Option ρ))
    (h1 : get_models env mode filter = .ok models)
    (h2 : gather (dispatched models pass kwargs runner) = .ok outs) :
    ∃ r, run env mode format dlen filter store pass kwargs time ser rowOf outOf runner =
        .ok r ∧
      r.storeCalls = (if store then
        [(DEFAULT_GCS_BUCKET,
          pyRegion env ++ "/" ++ mode ++ "/" ++ dateOf time ++ ".json",
          (format_response ser rowOf outOf r.response "json" dlen).1,
          (format_response ser rowOf outOf r.response "json" dlen).2)]
       else []) ∧
      (format_response ser rowOf outOf r.response "json" dlen).2 = "application/json" := by
  refine ⟨_, run_ok_of_gather_ok env mode format dlen filter store pass kwargs time
    ser rowOf outOf runner models outs h1 h2, rfl, rfl⟩

/-- C7 (witness): audio roster, `store` set, tabular output requested; the
single store call carries the structured rendering. -/
theorem store_exactly_once_with_structured_body_witness :
    ∃ r, run (fun _ => none) "audio" "text" 10 none true [] [] "2024-04-22T01:02:03"
        (fun (_ : Response Nat) => "JSONDOC") (fun _ => "") (fun _ => "")
        (fun (_ : List String) => (.ok (some 7) : Except String (Option Nat))) = .ok r ∧
      r.storeCalls = (if true then
        [(DEFAULT_GCS_BUCKET,
          pyRegion (fun _ => none) ++ "/" ++ "audio" ++ "/" ++
            dateOf "2024-04-22T01:02:03" ++ ".json",
          (format_response (fun _ => "JSONDOC") (fun _ => "") (fun _ => "")
            r.response "json" 10).1,
          (format_response (fun _ => "JSONDOC") (fun _ => "") (fun _ => "")
            r.response "json" 10).2)]
       else []) ∧
      (format_response (fun _ => "JSONDOC") (fun _ => "") (fun _ => "")
        r.response "json" 10).2 = "application/json" :=
  store_exactly_once_with_structured_body (fun _ => none) "audio" "text" 10 none true [] []
    "2024-04-22T01:02:03" (fun _ => "JSONDOC") (fun _ => "") (fun _ => "")
    (fun _ => .ok (some 7)) (av_models.filter (keepFilter none)) [some 7]
    (by rfl) (by rfl)

theorem escapeNL_no_newline (l : List Char) : '\n' ∉ escapeNL l := by
  induction l with
  | nil => simp [escapeNL]
  | cons c t ih =>
    by_cases h : c = '\n'
    · simp only [escapeNL, if_pos h, List.mem_cons]
      rintro (h1 | h2 | h3)
      · exact absurd h1 (by decide)
      · exact absurd h2 (by decide)
      · exact ih h3
    · simp only [escapeNL, if_neg h, List.mem_cons]
      rintro (h1 | h3)
      · exact h h1.symm
      · exact ih h3

theorem mem_pyStrip {c : Char} {l : List Char} (h : c ∈ pyStrip l) : c ∈ l := by
  unfold pyStrip at h
  rw [List.mem_reverse] at h
  have h1 := (List.dropWhile_sublist _).subset h
  rw [List.mem_reverse] at h1
  exact (List.dropWhile_sublist _).subset h1

theorem length_pyPadWith (fill : Char) (s : List Char) (d : Nat) :
    (pyPadWith fill s d).length = d := by
  simp only [pyPadWith, List.length_append, List.length_replicate, List.length_take]
  omega

theorem mem_pyPadWith {c fill : Char} {s : List Char} {d : Nat}
    (h : c ∈ pyPadWith fill s d) : c ∈ s ∨ c = fill := by
  rcases List.mem_append.mp h with h1 | h2
  · exact Or.inl ((List.take_sublist _ _).subset h1)
  · exact Or.inr (List.eq_of_mem_replicate h2)

/-- C6: the Output column pipeline first rewrites every embedded newline to
the two characters backslash-`n` (then strips surrounding whitespace) and
renders the field at exactly `displayWidth` characters — truncated when
longer, space-padded when shorter — so it never contains a raw newline; the
concrete output `line1\nline2` at width 10 yields the escaped, truncated
10-character field `line1\\nlin` (backslash, `n` in place of the newline). -/
theorem format_output_field_exact_width_no_newline :
    (∀ (out : String) (dlen : Nat),
      (formatOutputField out dlen).length = dlen ∧
      '\n' ∉ (formatOutputField out dlen).data) ∧
    formatOutputField "line1\nline2" 10 = "line1\\nlin" := by
  refine ⟨fun out dlen => ⟨?_, ?_⟩, by decide⟩
  · show (pyPad (pyStrip (escapeNL out.data)) dlen).length = dlen
    exact length_pyPadWith ' ' _ dlen
  · intro hmem
    rcases mem_pyPadWith hmem with h | h
    · exact escapeNL_no_newline _ (mem_pyStrip h)
    · exact absurd h (by decide)

/-- C8 (witness): a key not named in the shared options keeps its pre-merge
value at a concrete input. -/
theorem apply_mutates_in_place_witness :
    dictGet ((mkLlm "m" []).apply ["pt"] [("temperature", some "0.5")]).args "model" =
      dictGet (mkLlm "m" []).args "model" :=
  (apply_mutates_in_place (mkLlm "m" []) ["pt"] [("temperature", some "0.5")]).2.2
    "model" (by decide)
